import Mathlib

/-!
Verification of the Mystical Campaign Engine services: the health-score
analyzer, the whisper generator, the publishing stubs and the feedback
engagement-rate computation, shallowly embedded from the TypeScript source.
JS numbers are modelled as rationals, machine strings as Lean strings,
optional JS values as Option, and ambient browser state (the clock and the
calendar) as an explicit environment record threaded to every service entry
point.
-/

namespace Campaign

/-! ## JS primitives -/

/-- JS Math.round: round half toward positive infinity. -/
def jsRound (q : ℚ) : ℤ := Rat.floor (q + 1/2)

/-- Does the first character list lead the second one (character by character)? -/
def strStarts : List Char → List Char → Bool
  | [], _ => true
  | _ :: _, [] => false
  | a :: as, b :: bs => a == b && strStarts as bs

/-- Occurrence of the pattern (first argument) anywhere inside the second list. -/
def strHasL (pat : List Char) : List Char → Bool
  | [] => strStarts pat []
  | c :: rest => strStarts pat (c :: rest) || strHasL pat rest

/-- JS String.prototype.includes. -/
def strHas (s pat : String) : Bool := strHasL pat.toList s.toList

/-- JS String.prototype.toLowerCase (ASCII range, as all patterns in the source are ASCII). -/
def lowerStr (s : String) : String := String.mk (s.toList.map Char.toLower)

/-- Ambient browser state available to every service function: the clock
(Date.now in milliseconds), the calendar fields read off new Date(), and a
seed standing for Math.random. -/
structure Env where
  nowMs : ℤ
  month : ℕ
  dayOfWeek : ℕ
  randomSeed : ℕ

deriving instance DecidableEq for Env

/-! ## Data model: the brief (input types) -/

structure CampaignMeta where
  campaign_name : String
  purpose : String
  pillars : List String
  primary_theme : String

structure Audience where
  archetypes : List String
  hidden_truth : String
  fears : List String
  secret_desires : List String

inductive CtaFlavor
  | soft_cosmic | direct_push | challenge_based | curiosity_based

structure EmotionalFrequency where
  humor : ℚ
  relatability : ℚ
  shock : ℚ
  inspiration : ℚ
  identity_shift : ℚ

structure CreativeInputs where
  raw_brain_dump : String
  must_include_phrases : List String
  must_avoid_phrases : List String
  voice_reference : String
  cta_flavor : CtaFlavor
  emotional_frequency : EmotionalFrequency

structure VisualInputs where
  style_tags : List String
  palette : String
  instructor_image_url : String
  logo_image_url : String

structure OutputFormats where
  memes : Bool
  static_banners : Bool
  short_vertical_videos : Bool
  ugc_scripts : Bool
  carousels : Bool

structure OutputQuantities where
  memes : ℕ
  static_banners : ℕ
  short_vertical_videos : ℕ
  ugc_scripts : ℕ
  carousels : ℕ

structure OutputsConfig where
  formats : OutputFormats
  quantities : OutputQuantities
  platforms : List String
  aspect_ratios : List String
  video_max_duration_seconds : ℕ

inductive HumorEdgeLevel
  | safe | medium_spicy | spicy_but_kind

inductive BodySensitivity
  | no_body_shaming | neutral | soft_body_language

inductive LanguageFilter
  | clean | pg13 | mild_swear

inductive SpiritualityFlavor
  | grounded | grounded_cosmic | very_cosmic

structure Constraints where
  humor_edge_level : HumorEdgeLevel
  body_sensitivity : BodySensitivity
  language_filter : LanguageFilter
  spirituality_flavor : SpiritualityFlavor

structure CampaignBrief where
  meta : CampaignMeta
  audience : Audience
  creative : CreativeInputs
  visual : VisualInputs
  outputs : OutputsConfig
  constraints : Constraints
  special_notes : String

/-! ## Data model: the blueprint (output types) -/

structure Meme where
  id : String
  angle : String
  top_text : String
  bottom_text : String
  alt_text : String
  caption_options : List String
  hashtags : List String
  image_prompt : String
  recommended_aspect_ratios : List String

structure StaticBanner where
  id : String
  headline : String
  subheadline : String
  bullets : List String
  cta_text : String
  layout_description : String
  image_prompt : String
  recommended_aspect_ratios : List String

structure ScriptBeat where
  beat_index : ℕ
  approx_seconds : ℚ
  voiceover_text : String
  on_screen_text : String
  visual_direction : String

structure ShortVideo where
  id : String
  title : String
  platform_targets : List String
  max_duration_seconds : ℕ
  script_beats : List ScriptBeat
  storyboard_prompt : String
  subtitles_block : String

structure ScriptBlock where
  block_index : ℕ
  approx_seconds : ℚ
  spoken_text : String
  emotion_note : String
  framing_note : String

structure UGCScript where
  id : String
  hook_line : String
  persona : String
  script_blocks : List ScriptBlock
  wardrobe_note : String
  lighting_note : String
  overlay_text_cues : List String
  cta_line : String

structure CarouselSlide where
  slide_number : ℕ
  visual_description : String
  image_prompt : String
  headline : String
  body_copy : String

structure Carousel where
  id : String
  title : String
  slides : List CarouselSlide

inductive MomentType
  | primal_flow_fusion | animator_shift | moments

structure MomentsMapping where
  moment_type : MomentType
  use_case : String
  suggested_line : String
  where_to_use : String

structure CampaignSummary where
  one_liner : String
  pillars : List String
  core_promise : String
  primary_emotions : List String
  tone_description : String

structure NarrativePack where
  hooks : List String
  pain_points : List String
  micro_transformations : List String
  cta_variants : List String
  taglines : List String

structure CampaignBlueprint where
  campaign_summary : CampaignSummary
  narrative_pack : NarrativePack
  memes : List Meme
  static_banners : List StaticBanner
  short_videos : List ShortVideo
  ugc_scripts : List UGCScript
  carousels : List Carousel
  moments_mapping : List MomentsMapping

/-! ## Health score analyzer (src healthScore service) -/

inductive InsightType
  | strength | warning | opportunity

inductive Impact
  | low | medium | high

structure HealthInsight where
  type : InsightType
  category : String
  message : String
  impact : Impact

structure HealthBreakdown where
  narrativeStrength : ℤ
  emotionalBalance : ℤ
  assetCoverage : ℤ
  hookQuality : ℤ
  ctaClarity : ℤ
  pillarAlignment : ℤ

structure HealthScoreResult where
  overall : ℤ
  breakdown : HealthBreakdown
  insights : List HealthInsight
  recommendations : List String

def analyzeNarrativeStrength (blueprint : CampaignBlueprint) : ℤ :=
  let narrative := blueprint.narrative_pack
  let hookScore : ℤ := min ((narrative.hooks.length : ℤ) * 5) 25
  let painScore : ℤ := min ((narrative.pain_points.length : ℤ) * 5) 20
  let transScore : ℤ := min ((narrative.micro_transformations.length : ℤ) * 5) 20
  let taglineScore : ℤ := min ((narrative.taglines.length : ℤ) * 4) 20
  let summary := blueprint.campaign_summary
  let oneLinerScore : ℤ := if 10 < summary.one_liner.length then 5 else 0
  let promiseScore : ℤ := if 10 < summary.core_promise.length then 5 else 0
  let toneScore : ℤ := if 10 < summary.tone_description.length then 5 else 0
  min (hookScore + painScore + transScore + taglineScore
        + oneLinerScore + promiseScore + toneScore) 100

def positiveEmotionWords : List String :=
  ["joy", "inspiration", "hope", "excitement", "empowerment"]

def tensionEmotionWords : List String :=
  ["urgency", "fomo", "frustration", "challenge"]

def analyzeEmotionalBalance (brief : CampaignBrief) (blueprint : CampaignBlueprint) : ℤ :=
  let freq := brief.creative.emotional_frequency
  let emotions := blueprint.campaign_summary.primary_emotions
  let mixBonus : ℤ := if 2 ≤ emotions.length ∧ emotions.length ≤ 5 then 20 else 0
  let hasPositive :=
    emotions.any (fun e => positiveEmotionWords.any (fun p => strHas (lowerStr e) p))
  let hasTension :=
    emotions.any (fun e => tensionEmotionWords.any (fun t => strHas (lowerStr e) t))
  let positiveBonus : ℤ := if hasPositive then 15 else 0
  let tensionBonus : ℤ := if hasTension then 15 else 0
  let maxFreq := max freq.humor (max freq.relatability (max freq.shock
                   (max freq.inspiration freq.identity_shift)))
  let minFreq := min freq.humor (min freq.relatability (min freq.shock
                   (min freq.inspiration freq.identity_shift)))
  let imbalancePenalty : ℤ := if 7 < maxFreq - minFreq then 15 else 0
  max 0 (min (50 + mixBonus + positiveBonus + tensionBonus - imbalancePenalty) 100)

/-- One requested/generated quantity pair's contribution to totalGenerated in
the analyzeAssetCoverage loop (0 when the type is not requested). -/
def coverageContribution (req gen : ℕ) : ℚ :=
  if 0 < req then
    (if req ≤ gen then 1 else if 0 < gen then (gen : ℚ) / (req : ℚ) else 0)
  else 0

/-- The five (requested, generated) quantity pairs iterated by analyzeAssetCoverage. -/
def coveragePairs (brief : CampaignBrief) (blueprint : CampaignBlueprint) : List (ℕ × ℕ) :=
  [(brief.outputs.quantities.memes, blueprint.memes.length),
   (brief.outputs.quantities.static_banners, blueprint.static_banners.length),
   (brief.outputs.quantities.short_vertical_videos, blueprint.short_videos.length),
   (brief.outputs.quantities.ugc_scripts, blueprint.ugc_scripts.length),
   (brief.outputs.quantities.carousels, blueprint.carousels.length)]

def analyzeAssetCoverage (brief : CampaignBrief) (blueprint : CampaignBlueprint) : ℤ :=
  let pairs := coveragePairs brief blueprint
  let totalRequested : ℕ := (pairs.filter (fun p => 0 < p.1)).length
  let totalGenerated : ℚ := (pairs.map (fun p => coverageContribution p.1 p.2)).sum
  if 0 < totalRequested then
    jsRound ((totalGenerated / (totalRequested : ℚ)) * 100)
  else 100

def hookEmotionWords : List String :=
  ["stop", "never", "secret", "truth", "why", "how", "what if", "imagine", "finally"]

/-- A JS regex word character: letter, digit or underscore. -/
def isWordChar (c : Char) : Bool := c.isAlphanum || c == '_'

def optWordChar : Option Char → Bool
  | none => false
  | some c => isWordChar c

/-- Scan for the word "you" with word boundaries on both sides, remembering
the previous character. -/
def scanWordYou : Option Char → List Char → Bool
  | _, [] => false
  | prev, c :: rest =>
      (strStarts ['y', 'o', 'u'] (c :: rest)
        && !(optWordChar prev)
        && !(optWordChar (rest.drop 2).head?))
      || scanWordYou (some c) rest

/-- JS regex test of /\byou\b/i. -/
def hasWordYou (s : String) : Bool := scanWordYou none (lowerStr s).toList

/-- The per-hook point total accumulated by the analyzeHookQuality loop. -/
def hookScoreOf (hook : String) : ℕ :=
  let len := hook.length
  let lenScore := if 20 ≤ len ∧ len ≤ 100 then 10 else if len < 20 then 5 else 0
  let hasQuestion := strHas hook "?"
  let hasNumber := hook.toList.any Char.isDigit
  let hasEmotionWord := hookEmotionWords.any (fun w => strHas (lowerStr hook) w)
  let hasYou := hasWordYou hook
  lenScore + (if hasQuestion then 5 else 0) + (if hasNumber then 3 else 0)
    + (if hasEmotionWord then 5 else 0) + (if hasYou then 2 else 0)

def analyzeHookQuality (blueprint : CampaignBlueprint) : ℤ :=
  let hooks := blueprint.narrative_pack.hooks
  if hooks.length = 0 then 0
  else
    let score : ℕ := (hooks.map hookScoreOf).sum
    min (jsRound (((score : ℚ) / (hooks.length : ℚ)) * 4)) 100

def ctaActionWords : List String :=
  ["start", "join", "get", "try", "discover", "unlock", "claim", "begin", "transform"]

def ctaUrgencyWords : List String :=
  ["now", "today", "free", "limited", "exclusive"]

def analyzeCtaClarity (blueprint : CampaignBlueprint) : ℤ :=
  let ctas := blueprint.narrative_pack.cta_variants
  if ctas.length = 0 then 30
  else
    let varietyBonus : ℤ := if 3 ≤ ctas.length then 20 else if 2 ≤ ctas.length then 10 else 0
    let hasActionWords :=
      ctas.any (fun cta => ctaActionWords.any (fun w => strHas (lowerStr cta) w))
    let hasUrgency :=
      ctas.any (fun cta => ctaUrgencyWords.any (fun w => strHas (lowerStr cta) w))
    min (50 + varietyBonus + (if hasActionWords then 15 else 0)
          + (if hasUrgency then 15 else 0)) 100

/-- Is a requested pillar reflected (case-insensitively, as a substring) in
some generated pillar string? -/
def pillarMatched (generatedPillars : List String) (p : String) : Bool :=
  generatedPillars.any (fun gp => strHas (lowerStr gp) (lowerStr p))

/-- The number of requested pillars matched in the blueprint summary. -/
def pillarMatchCount (brief : CampaignBrief) (blueprint : CampaignBlueprint) : ℕ :=
  (brief.meta.pillars.filter
    (fun p => pillarMatched blueprint.campaign_summary.pillars p)).length

def analyzePillarAlignment (brief : CampaignBrief) (blueprint : CampaignBlueprint) : ℤ :=
  let requestedPillars := brief.meta.pillars
  if requestedPillars.length = 0 then 100
  else
    let matchCount := pillarMatchCount brief blueprint
    jsRound (((matchCount : ℚ) / (requestedPillars.length : ℚ)) * 100)

def healthBreakdown (brief : CampaignBrief) (blueprint : CampaignBlueprint) : HealthBreakdown :=
  { narrativeStrength := analyzeNarrativeStrength blueprint
    emotionalBalance := analyzeEmotionalBalance brief blueprint
    assetCoverage := analyzeAssetCoverage brief blueprint
    hookQuality := analyzeHookQuality blueprint
    ctaClarity := analyzeCtaClarity blueprint
    pillarAlignment := analyzePillarAlignment brief blueprint }

/-- The fixed rubric weights applied to the six sub-scores. -/
def healthWeightedTotal (b : HealthBreakdown) : ℚ :=
  (b.narrativeStrength : ℚ) * 0.20
    + (b.emotionalBalance : ℚ) * 0.15
    + (b.assetCoverage : ℚ) * 0.20
    + (b.hookQuality : ℚ) * 0.20
    + (b.ctaClarity : ℚ) * 0.15
    + (b.pillarAlignment : ℚ) * 0.10

def generateInsights (_env : Env) (_brief : CampaignBrief) (_blueprint : CampaignBlueprint)
    (breakdown : HealthBreakdown) : List HealthInsight :=
  (if 80 ≤ breakdown.narrativeStrength then
    [{ type := .strength, category := "Narrative",
       message := "Strong narrative foundation with compelling hooks and transformations.",
       impact := .high }]
   else if breakdown.narrativeStrength < 50 then
    [{ type := .warning, category := "Narrative",
       message := "Narrative needs more hooks and pain point articulation.",
       impact := .high }]
   else [])
  ++ (if 75 ≤ breakdown.emotionalBalance then
    [{ type := .strength, category := "Emotion",
       message := "Well-balanced emotional mix creates compelling tension.",
       impact := .medium }]
   else if breakdown.emotionalBalance < 50 then
    [{ type := .warning, category := "Emotion",
       message := "Emotional frequencies are imbalanced. Consider adjusting.",
       impact := .medium }]
   else [])
  ++ (if breakdown.assetCoverage < 80 then
    [{ type := .warning, category := "Assets",
       message := "Some requested asset types are under-delivered.",
       impact := .medium }]
   else [])
  ++ (if 80 ≤ breakdown.hookQuality then
    [{ type := .strength, category := "Hooks",
       message := "Scroll-stopping hooks with strong pattern interrupts.",
       impact := .high }]
   else if breakdown.hookQuality < 50 then
    [{ type := .opportunity, category := "Hooks",
       message := "Hooks could be punchier. Add questions or numbers.",
       impact := .high }]
   else [])
  ++ (if 80 ≤ breakdown.ctaClarity then
    [{ type := .strength, category := "CTAs",
       message := "Clear, action-oriented calls to action.",
       impact := .medium }]
   else [])
  ++ (if breakdown.pillarAlignment < 100 ∧ 0 < breakdown.pillarAlignment then
    [{ type := .warning, category := "Strategy",
       message := "Not all strategic pillars are reflected in the blueprint.",
       impact := .low }]
   else [])

def generateRecommendations (breakdown : HealthBreakdown)
    (_insights : List HealthInsight) : List String :=
  let recommendations :=
    (if breakdown.hookQuality < 70 then
      ["Add more questions and numbers to your hooks for higher engagement."] else [])
    ++ (if breakdown.emotionalBalance < 60 then
      ["Balance positive emotions (inspiration, hope) with tension (urgency, FOMO)."] else [])
    ++ (if breakdown.narrativeStrength < 60 then
      ["Develop more micro-transformations to show the journey."] else [])
    ++ (if breakdown.ctaClarity < 60 then
      ["Use stronger action verbs in CTAs: \"Unlock\", \"Claim\", \"Transform\"."] else [])
    ++ (if breakdown.assetCoverage < 80 then
      ["Consider regenerating the blueprint to meet all asset requirements."] else [])
  if recommendations.isEmpty then
    ["Campaign is strong. Consider A/B testing hooks for optimization."]
  else recommendations

def analyzeHealthScore (env : Env) (brief : CampaignBrief)
    (blueprint : CampaignBlueprint) : HealthScoreResult :=
  let breakdown := healthBreakdown brief blueprint
  let overall := jsRound (healthWeightedTotal breakdown)
  let insights := generateInsights env brief blueprint breakdown
  let recommendations := generateRecommendations breakdown insights
  { overall := overall, breakdown := breakdown,
    insights := insights, recommendations := recommendations }

/-! ## Whisper service (src/services/whisperService.ts) -/

inductive WhisperType
  | insight | suggestion | warning | opportunity

inductive WhisperCategory
  | assets | engagement | trends | optimization | timing

inductive WhisperPriority
  | low | medium | high

structure Whisper where
  id : String
  type : WhisperType
  category : WhisperCategory
  title : String
  message : String
  action : Option String
  actionLabel : Option String
  priority : WhisperPriority
  icon : String
  createdAt : ℤ

deriving instance DecidableEq for WhisperType
deriving instance DecidableEq for WhisperCategory
deriving instance DecidableEq for WhisperPriority
deriving instance DecidableEq for Whisper

/-- A campaign record as stored in IndexedDB; the brief and blueprint fields
are untyped in storage, so they may be absent. -/
structure StoredCampaign where
  id : String
  name : String
  brief : Option CampaignBrief
  blueprint : Option CampaignBlueprint
  createdAt : ℤ
  updatedAt : ℤ
  healthScore : Option ℚ
  tags : Option (List String)

structure StoredAsset where
  id : String
  campaignId : String
  type : String
  dataUrl : String
  prompt : String
  createdAt : ℤ
  tags : Option (List String)

def countAssetType (assets : List StoredAsset) (t : String) : ℕ :=
  (assets.filter (fun a => a.type = t)).length

/-- JS type.charAt(0).toUpperCase() + type.slice(1). -/
def capitalizeFirst (s : String) : String :=
  match s.toList with
  | [] => ""
  | c :: rest => String.mk (c.toUpper :: rest)

def getAssetSuggestion (t : String) : String :=
  if t = "meme" then "Memes drive high shareability and relatability."
  else if t = "banner" then "Banners are great for professional platforms and ads."
  else if t = "storyboard" then "Storyboards help visualize video concepts before production."
  else if t = "carousel" then "Carousels drive deep engagement, especially on LinkedIn."
  else ""

def getAssetIcon (t : String) : String :=
  if t = "meme" then "🖼️"
  else if t = "banner" then "🎨"
  else if t = "storyboard" then "🎬"
  else if t = "carousel" then "🎠"
  else "📦"

def trackedAssetTypes : List String := ["meme", "banner", "storyboard", "carousel"]

/-- First occurrences of each string, in order: the iteration order of the
keys of a JS object built by insertion. -/
def firstOccurrences : List String → List String → List String
  | [], _ => []
  | t :: rest, seen =>
    if t ∈ seen then firstOccurrences rest seen
    else t :: firstOccurrences rest (t :: seen)

def analyzeAssetDistribution (env : Env) (assets : List StoredAsset) : List Whisper :=
  if assets.length = 0 then []
  else
    let total := assets.length
    let underused := trackedAssetTypes.filterMap (fun t =>
      let count := countAssetType assets t
      if count = 0 ∨ (count : ℚ) < (total : ℚ) * 0.1 then
        some { id := "whisper_asset_" ++ t ++ "_" ++ toString env.nowMs
               type := .suggestion, category := .assets
               title := capitalizeFirst t ++ "s Underused"
               message := "You've created few " ++ t ++ "s. " ++ getAssetSuggestion t
               action := none, actionLabel := none
               priority := .medium, icon := getAssetIcon t, createdAt := env.nowMs }
      else none)
    let typesInOrder := firstOccurrences (assets.map (fun a => a.type)) []
    let overuse := typesInOrder.filterMap (fun t =>
      let count := countAssetType assets t
      if (total : ℚ) * 0.6 < (count : ℚ) then
        some { id := "whisper_overuse_" ++ t ++ "_" ++ toString env.nowMs
               type := .insight, category := .assets
               title := "Asset Mix Imbalance"
               message := toString (jsRound ((count : ℚ) / (total : ℚ) * 100))
                 ++ "% of your assets are " ++ t
                 ++ "s. Diversifying could reach different audience segments."
               action := none, actionLabel := none
               priority := .low, icon := "⚖️", createdAt := env.nowMs }
      else none)
    underused ++ overuse

def analyzeCampaignPatterns (env : Env) (campaigns : List StoredCampaign) : List Whisper :=
  if campaigns.length < 2 then []
  else
    let recentCampaigns := campaigns.take 5
    let avgHealth : ℚ :=
      ((recentCampaigns.map (fun c => c.healthScore.getD 0)).sum) / (recentCampaigns.length : ℚ)
    let healthWhispers :=
      if avgHealth < 60 then
        [{ id := "whisper_health_" ++ toString env.nowMs
           type := .warning, category := .optimization
           title := "Health Scores Trending Low"
           message := "Your recent campaigns average " ++ toString (jsRound avgHealth)
             ++ " health. Focus on stronger hooks and clearer CTAs."
           action := none, actionLabel := none
           priority := .high, icon := "💊", createdAt := env.nowMs }]
      else if 80 ≤ avgHealth then
        [{ id := "whisper_health_good_" ++ toString env.nowMs
           type := .insight, category := .optimization
           title := "Strong Campaign Performance"
           message := "Your campaigns are averaging " ++ toString (jsRound avgHealth)
             ++ " health. Keep up the momentum!"
           action := none, actionLabel := none
           priority := .low, icon := "🌟", createdAt := env.nowMs }]
      else []
    let decliningWhispers :=
      if 3 ≤ recentCampaigns.length then
        let scores := recentCampaigns.map (fun c => c.healthScore.getD 0)
        if scores.getD 0 0 < scores.getD 1 0 ∧ scores.getD 1 0 < scores.getD 2 0 then
          [{ id := "whisper_declining_" ++ toString env.nowMs
             type := .warning, category := .optimization
             title := "Declining Campaign Quality"
             message := "Health scores have dropped for 3 consecutive campaigns. Review what changed in your approach."
             action := none, actionLabel := none
             priority := .high, icon := "📉", createdAt := env.nowMs }]
        else []
      else []
    healthWhispers ++ decliningWhispers

def analyzeTimingPatterns (env : Env) (campaigns : List StoredCampaign) : List Whisper :=
  match campaigns with
  | [] => []
  | lastCampaign :: _ =>
    let daysSinceLast : ℤ := Int.fdiv (env.nowMs - lastCampaign.updatedAt) (1000 * 60 * 60 * 24)
    let inactiveWhispers :=
      if 14 < daysSinceLast then
        [{ id := "whisper_inactive_" ++ toString env.nowMs
           type := .suggestion, category := .timing
           title := "Time for Fresh Content"
           message := "It's been " ++ toString daysSinceLast
             ++ " days since your last campaign. Consistency builds audience trust."
           action := none, actionLabel := some "Start New Campaign"
           priority := .medium, icon := "📅", createdAt := env.nowMs }]
      else []
    let thisWeek :=
      (campaigns.filter (fun c => env.nowMs - 7 * 24 * 60 * 60 * 1000 < c.createdAt)).length
    let prolificWhispers :=
      if 5 ≤ thisWeek then
        [{ id := "whisper_prolific_" ++ toString env.nowMs
           type := .insight, category := .timing
           title := "Prolific Week"
           message := "You've created " ++ toString thisWeek
             ++ " campaigns this week. Make sure quality matches quantity."
           action := none, actionLabel := none
           priority := .low, icon := "🔥", createdAt := env.nowMs }]
      else []
    inactiveWhispers ++ prolificWhispers

def generateOpportunities (env : Env) (campaigns : List StoredCampaign)
    (assets : List StoredAsset) : List Whisper :=
  let seasonal :=
    if env.month = 11 ∨ env.month = 0 then
      [{ id := "whisper_seasonal_" ++ toString env.nowMs
         type := .opportunity, category := .trends
         title := "New Year Campaign Opportunity"
         message := "New Year resolutions drive high engagement. Consider \"fresh start\" and \"transformation\" themes."
         action := none, actionLabel := none
         priority := .medium, icon := "🎯", createdAt := env.nowMs }]
    else []
  let monday :=
    if env.dayOfWeek = 1 then
      [{ id := "whisper_monday_" ++ toString env.nowMs
         type := .opportunity, category := .timing
         title := "Monday Motivation"
         message := "Motivation content performs well on Mondays. Perfect time for a new campaign launch."
         action := none, actionLabel := none
         priority := .low, icon := "💪", createdAt := env.nowMs }]
    else []
  let carouselCount := (assets.filter (fun a => a.type = "carousel")).length
  let carousel :=
    if carouselCount < 3 ∧ 2 < campaigns.length then
      [{ id := "whisper_carousel_" ++ toString env.nowMs
         type := .opportunity, category := .trends
         title := "LinkedIn Carousel Opportunity"
         message := "Carousels are driving high engagement on LinkedIn. Consider adding more to your mix."
         action := none, actionLabel := none
         priority := .medium, icon := "🎠", createdAt := env.nowMs }]
    else []
  seasonal ++ monday ++ carousel

def whisperPillars : List String := ["primal_flow_fusion", "animator_shift", "moments"]

def campaignPillarsOf (c : StoredCampaign) : List String :=
  match c.brief with
  | some b => b.meta.pillars
  | none => []

def pillarUseCount (campaigns : List StoredCampaign) (p : String) : ℕ :=
  (((campaigns.map campaignPillarsOf).flatten).filter (fun q => q = p)).length

def underscoresToSpaces (s : String) : String :=
  String.mk (s.toList.map (fun c => if c = '_' then ' ' else c))

def analyzePillarUsage (env : Env) (campaigns : List StoredCampaign) : List Whisper :=
  if campaigns.length < 3 then []
  else
    let total := campaigns.length
    whisperPillars.filterMap (fun pillar =>
      let count := pillarUseCount campaigns pillar
      if count = 0 ∨ (count : ℚ) < (total : ℚ) * 0.2 then
        some { id := "whisper_pillar_" ++ pillar ++ "_" ++ toString env.nowMs
               type := .suggestion, category := .optimization
               title := "Underused Pillar: " ++ underscoresToSpaces pillar
               message := "The \"" ++ underscoresToSpaces pillar
                 ++ "\" pillar hasn't been featured much. It could open new creative angles."
               action := none, actionLabel := none
               priority := .low, icon := "🏛️", createdAt := env.nowMs }
      else none)

/-- The JS comparator's priority order values: high 0, medium 1, low 2. -/
def priorityOrderVal : WhisperPriority → ℕ
  | .high => 0
  | .medium => 1
  | .low => 2

/-- The ordering imposed on whispers by the sort comparator. -/
def whisperLE (a b : Whisper) : Prop :=
  priorityOrderVal a.priority ≤ priorityOrderVal b.priority

instance : DecidableRel whisperLE := fun a b =>
  Nat.decLe (priorityOrderVal a.priority) (priorityOrderVal b.priority)

instance : IsTotal Whisper whisperLE :=
  ⟨fun a b => Nat.le_total (priorityOrderVal a.priority) (priorityOrderVal b.priority)⟩

instance : IsTrans Whisper whisperLE :=
  ⟨fun _ _ _ => Nat.le_trans⟩

/-- The whisper generator: collect pattern whispers from the stored history
(and the calendar), stable-sort them by priority, and keep the first five. -/
def generateWhispers (env : Env) (campaigns : List StoredCampaign)
    (assets : List StoredAsset) : List Whisper :=
  ((analyzeAssetDistribution env assets
      ++ analyzeCampaignPatterns env campaigns
      ++ analyzeTimingPatterns env campaigns
      ++ generateOpportunities env campaigns assets
      ++ analyzePillarUsage env campaigns).insertionSort whisperLE).take 5

/-! ## Publishing service (platform API stubs) -/

structure PlatformCredentials where
  platform : String
  accessToken : String
  refreshToken : Option String
  expiresAt : Option ℤ
  accountId : Option String
  accountName : Option String

deriving instance DecidableEq for PlatformCredentials

structure PublishContent where
  text : Option String
  imageUrl : Option String
  videoUrl : Option String
  link : Option String
  hashtags : Option (List String)

structure PublishScheduling where
  publishAt : Option ℤ
  timezone : Option String

structure PublishRequest where
  platform : String
  content : PublishContent
  scheduling : Option PublishScheduling

structure PublishResult where
  success : Bool
  platform : String
  postId : Option String
  postUrl : Option String
  error : Option String
  publishedAt : Option ℤ

deriving instance DecidableEq for PublishResult

structure PlatformConfig where
  platform : String
  name : String
  icon : String
  color : String
  supportsImages : Bool
  supportsVideo : Bool
  supportsScheduling : Bool
  maxTextLength : ℕ
  aspectRatios : List String
  authUrl : Option String

def metaConfig : PlatformConfig :=
  { platform := "meta", name := "Meta (Instagram/Facebook)", icon := "📘", color := "#1877F2"
    supportsImages := true, supportsVideo := true, supportsScheduling := true
    maxTextLength := 2200, aspectRatios := ["1:1", "4:5", "9:16"]
    authUrl := some "https://www.facebook.com/v18.0/dialog/oauth" }

def tiktokConfig : PlatformConfig :=
  { platform := "tiktok", name := "TikTok", icon := "🎵", color := "#000000"
    supportsImages := false, supportsVideo := true, supportsScheduling := false
    maxTextLength := 2200, aspectRatios := ["9:16"]
    authUrl := some "https://www.tiktok.com/auth/authorize/" }

def linkedinConfig : PlatformConfig :=
  { platform := "linkedin", name := "LinkedIn", icon := "💼", color := "#0A66C2"
    supportsImages := true, supportsVideo := true, supportsScheduling := true
    maxTextLength := 3000, aspectRatios := ["1:1", "16:9", "4:5"]
    authUrl := some "https://www.linkedin.com/oauth/v2/authorization" }

def twitterConfig : PlatformConfig :=
  { platform := "twitter", name := "X (Twitter)", icon := "𝕏", color := "#000000"
    supportsImages := true, supportsVideo := true, supportsScheduling := true
    maxTextLength := 280, aspectRatios := ["16:9", "1:1"]
    authUrl := some "https://twitter.com/i/oauth2/authorize" }

/-- The per-platform configuration record PLATFORM_CONFIGS. -/
def PLATFORM_CONFIGS (p : String) : Option PlatformConfig :=
  if p = "meta" then some metaConfig
  else if p = "tiktok" then some tiktokConfig
  else if p = "linkedin" then some linkedinConfig
  else if p = "twitter" then some twitterConfig
  else none

/-- The in-memory credential map keyed by platform. -/
def CredStore := List (String × PlatformCredentials)

def getStoredCredentials (store : CredStore) (platform : String) :
    Option PlatformCredentials :=
  ((store : List (String × PlatformCredentials)).find?
    (fun e => e.1 == platform)).map (fun e => e.2)

def storeCredentials (store : CredStore) (credentials : PlatformCredentials) : CredStore :=
  (credentials.platform, credentials)
    :: (store : List (String × PlatformCredentials)).filter
         (fun e => ¬ e.1 = credentials.platform)

def removeCredentials (store : CredStore) (platform : String) : CredStore :=
  (store : List (String × PlatformCredentials)).filter (fun e => ¬ e.1 = platform)

def publishToMeta (env : Env) (store : CredStore) (_request : PublishRequest) : PublishResult :=
  match getStoredCredentials store "meta" with
  | none =>
    { success := false, platform := "meta", postId := none, postUrl := none
      error := some "Not authenticated with Meta. Please connect your account."
      publishedAt := none }
  | some _ =>
    { success := true, platform := "meta"
      postId := some ("meta_post_" ++ toString env.nowMs)
      postUrl := some "https://www.instagram.com/p/mock_post_id/"
      error := none, publishedAt := some env.nowMs }

def publishToTikTok (env : Env) (store : CredStore) (request : PublishRequest) : PublishResult :=
  match getStoredCredentials store "tiktok" with
  | none =>
    { success := false, platform := "tiktok", postId := none, postUrl := none
      error := some "Not authenticated with TikTok. Please connect your account."
      publishedAt := none }
  | some _ =>
    match request.content.videoUrl with
    | none =>
      { success := false, platform := "tiktok", postId := none, postUrl := none
        error := some "TikTok requires video content.", publishedAt := none }
    | some _ =>
      { success := true, platform := "tiktok"
        postId := some ("tiktok_post_" ++ toString env.nowMs)
        postUrl := some "https://www.tiktok.com/@user/video/mock_video_id"
        error := none, publishedAt := some env.nowMs }

def publishToLinkedIn (env : Env) (store : CredStore) (_request : PublishRequest) : PublishResult :=
  match getStoredCredentials store "linkedin" with
  | none =>
    { success := false, platform := "linkedin", postId := none, postUrl := none
      error := some "Not authenticated with LinkedIn. Please connect your account."
      publishedAt := none }
  | some _ =>
    { success := true, platform := "linkedin"
      postId := some ("linkedin_post_" ++ toString env.nowMs)
      postUrl := some "https://www.linkedin.com/feed/update/mock_update_id/"
      error := none, publishedAt := some env.nowMs }

/-- The truthiness-guarded length check on request.content.text in publishToTwitter. -/
def tweetTooLong (request : PublishRequest) : Bool :=
  match request.content.text with
  | some t => 280 < t.length
  | none => false

def publishToTwitter (env : Env) (store : CredStore) (request : PublishRequest) : PublishResult :=
  match getStoredCredentials store "twitter" with
  | none =>
    { success := false, platform := "twitter", postId := none, postUrl := none
      error := some "Not authenticated with X. Please connect your account."
      publishedAt := none }
  | some _ =>
    if tweetTooLong request then
      { success := false, platform := "twitter", postId := none, postUrl := none
        error := some "Tweet exceeds 280 character limit.", publishedAt := none }
    else
      { success := true, platform := "twitter"
        postId := some ("tweet_" ++ toString env.nowMs)
        postUrl := some "https://twitter.com/user/status/mock_tweet_id"
        error := none, publishedAt := some env.nowMs }

/-- The universal publish dispatcher. The credential store is ambient module
state in the source, so the embedding threads it in and out explicitly; the
dispatcher only reads it. -/
def publish (env : Env) (store : CredStore) (request : PublishRequest) :
    PublishResult × CredStore :=
  (if request.platform = "meta" then publishToMeta env store request
   else if request.platform = "tiktok" then publishToTikTok env store request
   else if request.platform = "linkedin" then publishToLinkedIn env store request
   else if request.platform = "twitter" then publishToTwitter env store request
   else
    { success := false, platform := request.platform, postId := none, postUrl := none
      error := some "Unknown platform", publishedAt := none },
   store)

/-! ## Feedback service (engagement rate) -/

structure PerformanceMetrics where
  views : Option ℚ
  impressions : Option ℚ
  likes : Option ℚ
  comments : Option ℚ
  shares : Option ℚ
  saves : Option ℚ
  clicks : Option ℚ
  engagementRate : Option ℚ
  clickThroughRate : Option ℚ
  reach : Option ℚ
  followers : Option ℚ

/-- JS (x || 0) on an optional numeric field. -/
def orZero (x : Option ℚ) : ℚ :=
  match x with
  | some v => v
  | none => 0

/-- JS truthiness of an optional number: 0 and undefined are falsy. -/
def jsTruthy (x : Option ℚ) : Option ℚ :=
  match x with
  | some v => if v = 0 then none else some v
  | none => none

/-- The denominator metrics.reach || metrics.impressions || metrics.views || 1. -/
def engagementDenominator (metrics : PerformanceMetrics) : ℚ :=
  match jsTruthy metrics.reach with
  | some v => v
  | none =>
    match jsTruthy metrics.impressions with
    | some v => v
    | none =>
      match jsTruthy metrics.views with
      | some v => v
      | none => 1

def calculateEngagementRate (metrics : PerformanceMetrics) : ℚ :=
  let engagements := orZero metrics.likes + orZero metrics.comments
    + orZero metrics.shares + orZero metrics.saves
  (engagements / engagementDenominator metrics) * 100

/-! ## Arithmetic facts about jsRound -/

theorem ratFloor_eq_intFloor (q : ℚ) : Rat.floor q = ⌊q⌋ := by
  rw [Rat.floor_def', Rat.floor_def]

theorem jsRound_eq_floor (q : ℚ) : jsRound q = ⌊q + 1/2⌋ := by
  rw [jsRound, ratFloor_eq_intFloor]

theorem jsRound_eq_of (q : ℚ) (n : ℤ) (h1 : (n : ℚ) ≤ q + 1/2) (h2 : q + 1/2 < n + 1) :
    jsRound q = n := by
  rw [jsRound_eq_floor]
  exact Int.floor_eq_iff.mpr ⟨h1, h2⟩

theorem jsRound_nonneg (q : ℚ) (h : 0 ≤ q) : 0 ≤ jsRound q := by
  rw [jsRound_eq_floor]
  exact Int.le_floor.mpr (by push_cast; linarith)

theorem jsRound_mono {q r : ℚ} (h : q ≤ r) : jsRound q ≤ jsRound r := by
  rw [jsRound_eq_floor, jsRound_eq_floor]
  exact Int.floor_le_floor (by linarith)

theorem jsRound_intCast (n : ℤ) : jsRound (n : ℚ) = n :=
  jsRound_eq_of _ _ (by norm_num) (by norm_num)

theorem jsRound_le (q : ℚ) (n : ℤ) (h : q ≤ (n : ℚ)) : jsRound q ≤ n := by
  calc jsRound q ≤ jsRound (n : ℚ) := jsRound_mono h
    _ = n := jsRound_intCast n

/-! ## Bounds on the six sub-scores -/

theorem analyzeNarrativeStrength_range (blueprint : CampaignBlueprint) :
    0 ≤ analyzeNarrativeStrength blueprint ∧ analyzeNarrativeStrength blueprint ≤ 100 := by
  simp only [analyzeNarrativeStrength]
  split_ifs <;> omega

theorem analyzeEmotionalBalance_range (brief : CampaignBrief) (blueprint : CampaignBlueprint) :
    0 ≤ analyzeEmotionalBalance brief blueprint ∧ analyzeEmotionalBalance brief blueprint ≤ 100 := by
  simp only [analyzeEmotionalBalance]
  split_ifs <;> omega

theorem coverageContribution_nonneg (req gen : ℕ) : 0 ≤ coverageContribution req gen := by
  unfold coverageContribution
  split_ifs
  · norm_num
  · positivity
  · norm_num
  · norm_num

theorem coverageContribution_le_one (req gen : ℕ) (h : 0 < req) :
    coverageContribution req gen ≤ 1 := by
  unfold coverageContribution
  rw [if_pos h]
  split_ifs with h2 h3
  · exact le_refl 1
  · rw [div_le_one (by exact_mod_cast h)]
    exact_mod_cast Nat.le_of_lt (Nat.lt_of_not_le h2)
  · norm_num

theorem coverageContribution_zero (req gen : ℕ) (h : ¬ 0 < req) :
    coverageContribution req gen = 0 := by
  unfold coverageContribution
  rw [if_neg h]

theorem coverageContribution_full (req gen : ℕ) (h : req ≤ gen) :
    coverageContribution req gen = if 0 < req then 1 else 0 := by
  unfold coverageContribution
  by_cases h1 : 0 < req
  · rw [if_pos h1, if_pos h, if_pos h1]
  · rw [if_neg h1, if_neg h1]

theorem sum_coverageContribution_le (l : List (ℕ × ℕ)) :
    ((l.map (fun p => coverageContribution p.1 p.2)).sum)
      ≤ ((l.filter (fun p => 0 < p.1)).length : ℚ) := by
  induction l with
  | nil => simp
  | cons p t ih =>
    simp only [List.map_cons, List.sum_cons, List.filter_cons]
    by_cases h : 0 < p.1
    · have h1 : coverageContribution p.1 p.2 ≤ 1 := coverageContribution_le_one p.1 p.2 h
      simp only [h, decide_True, if_true, List.length_cons]
      push_cast
      linarith
    · rw [coverageContribution_zero p.1 p.2 h]
      simp only [h, decide_False, Bool.false_eq_true, if_false]
      linarith

theorem sum_coverageContribution_nonneg (l : List (ℕ × ℕ)) :
    0 ≤ ((l.map (fun p => coverageContribution p.1 p.2)).sum) := by
  induction l with
  | nil => simp
  | cons p t ih =>
    simp only [List.map_cons, List.sum_cons]
    have := coverageContribution_nonneg p.1 p.2
    linarith

theorem sum_coverageContribution_full (l : List (ℕ × ℕ)) (h : ∀ p ∈ l, p.1 ≤ p.2) :
    ((l.map (fun p => coverageContribution p.1 p.2)).sum)
      = ((l.filter (fun p => 0 < p.1)).length : ℚ) := by
  induction l with
  | nil => simp
  | cons p t ih =>
    simp only [List.map_cons, List.sum_cons, List.filter_cons]
    rw [coverageContribution_full p.1 p.2 (h p (List.mem_cons_self p t))]
    rw [ih (fun q hq => h q (List.mem_cons_of_mem p hq))]
    by_cases hp : 0 < p.1
    · simp only [hp, decide_True, if_true, List.length_cons]
      push_cast
      ring
    · simp only [hp, decide_False, Bool.false_eq_true, if_false]
      ring

theorem analyzeAssetCoverage_range (brief : CampaignBrief) (blueprint : CampaignBlueprint) :
    0 ≤ analyzeAssetCoverage brief blueprint ∧ analyzeAssetCoverage brief blueprint ≤ 100 := by
  unfold analyzeAssetCoverage
  set pairs := coveragePairs brief blueprint with hpairs
  simp only
  split_ifs with h
  · have hnn := sum_coverageContribution_nonneg pairs
    have hle := sum_coverageContribution_le pairs
    have htr : (0 : ℚ) < ((pairs.filter (fun p => 0 < p.1)).length : ℚ) := by
      exact_mod_cast h
    constructor
    · exact jsRound_nonneg _ (by positivity)
    · apply jsRound_le _ 100
      have hdiv : ((pairs.map (fun p => coverageContribution p.1 p.2)).sum)
          / ((pairs.filter (fun p => 0 < p.1)).length : ℚ) ≤ 1 :=
        (div_le_one htr).mpr hle
      push_cast
      nlinarith
  · norm_num

theorem analyzeHookQuality_range (blueprint : CampaignBlueprint) :
    0 ≤ analyzeHookQuality blueprint ∧ analyzeHookQuality blueprint ≤ 100 := by
  unfold analyzeHookQuality
  simp only
  split_ifs with h
  · norm_num
  · constructor
    · apply le_min _ (by norm_num)
      apply jsRound_nonneg
      positivity
    · exact min_le_right _ _

theorem analyzeCtaClarity_range (blueprint : CampaignBlueprint) :
    0 ≤ analyzeCtaClarity blueprint ∧ analyzeCtaClarity blueprint ≤ 100 := by
  unfold analyzeCtaClarity
  simp only
  split_ifs <;> omega

theorem pillarMatchCount_le (brief : CampaignBrief) (blueprint : CampaignBlueprint) :
    pillarMatchCount brief blueprint ≤ brief.meta.pillars.length :=
  List.length_filter_le _ _

theorem analyzePillarAlignment_range (brief : CampaignBrief) (blueprint : CampaignBlueprint) :
    0 ≤ analyzePillarAlignment brief blueprint ∧ analyzePillarAlignment brief blueprint ≤ 100 := by
  unfold analyzePillarAlignment
  simp only
  split_ifs with h
  · norm_num
  · have hlen : (0 : ℚ) < (brief.meta.pillars.length : ℚ) := by
      have : 0 < brief.meta.pillars.length := Nat.pos_of_ne_zero h
      exact_mod_cast this
    have hmc : ((pillarMatchCount brief blueprint : ℚ)) ≤ (brief.meta.pillars.length : ℚ) := by
      exact_mod_cast pillarMatchCount_le brief blueprint
    constructor
    · exact jsRound_nonneg _ (by positivity)
    · apply jsRound_le _ 100
      have hdiv : (pillarMatchCount brief blueprint : ℚ) / (brief.meta.pillars.length : ℚ) ≤ 1 :=
        (div_le_one hlen).mpr hmc
      push_cast
      nlinarith

/-- C1: for every campaign brief and blueprint, analyzeHealthScore returns an
overall score in [0, 100], and each of the six breakdown sub-scores lies in
[0, 100]: the weighted combination cannot leave that range. -/
theorem analyzeHealthScore_overall_in_range (env : Env) (brief : CampaignBrief)
    (blueprint : CampaignBlueprint) :
    (0 ≤ (analyzeHealthScore env brief blueprint).overall
      ∧ (analyzeHealthScore env brief blueprint).overall ≤ 100)
    ∧ (0 ≤ (analyzeHealthScore env brief blueprint).breakdown.narrativeStrength
      ∧ (analyzeHealthScore env brief blueprint).breakdown.narrativeStrength ≤ 100)
    ∧ (0 ≤ (analyzeHealthScore env brief blueprint).breakdown.emotionalBalance
      ∧ (analyzeHealthScore env brief blueprint).breakdown.emotionalBalance ≤ 100)
    ∧ (0 ≤ (analyzeHealthScore env brief blueprint).breakdown.assetCoverage
      ∧ (analyzeHealthScore env brief blueprint).breakdown.assetCoverage ≤ 100)
    ∧ (0 ≤ (analyzeHealthScore env brief blueprint).breakdown.hookQuality
      ∧ (analyzeHealthScore env brief blueprint).breakdown.hookQuality ≤ 100)
    ∧ (0 ≤ (analyzeHealthScore env brief blueprint).breakdown.ctaClarity
      ∧ (analyzeHealthScore env brief blueprint).breakdown.ctaClarity ≤ 100)
    ∧ (0 ≤ (analyzeHealthScore env brief blueprint).breakdown.pillarAlignment
      ∧ (analyzeHealthScore env brief blueprint).breakdown.pillarAlignment ≤ 100) := by
  have hns := analyzeNarrativeStrength_range blueprint
  have heb := analyzeEmotionalBalance_range brief blueprint
  have hac := analyzeAssetCoverage_range brief blueprint
  have hhq := analyzeHookQuality_range blueprint
  have hcc := analyzeCtaClarity_range blueprint
  have hpa := analyzePillarAlignment_range brief blueprint
  have hbd : (analyzeHealthScore env brief blueprint).breakdown = healthBreakdown brief blueprint := rfl
  have hov : (analyzeHealthScore env brief blueprint).overall
      = jsRound (healthWeightedTotal (healthBreakdown brief blueprint)) := rfl
  refine ⟨?_, ?_, ?_, ?_, ?_, ?_, ?_⟩
  · rw [hov]
    have h1 : (0 : ℚ) ≤ healthWeightedTotal (healthBreakdown brief blueprint) := by
      unfold healthWeightedTotal healthBreakdown
      simp only
      have c1 : (0 : ℚ) ≤ (analyzeNarrativeStrength blueprint : ℚ) := by exact_mod_cast hns.1
      have c2 : (0 : ℚ) ≤ (analyzeEmotionalBalance brief blueprint : ℚ) := by exact_mod_cast heb.1
      have c3 : (0 : ℚ) ≤ (analyzeAssetCoverage brief blueprint : ℚ) := by exact_mod_cast hac.1
      have c4 : (0 : ℚ) ≤ (analyzeHookQuality blueprint : ℚ) := by exact_mod_cast hhq.1
      have c5 : (0 : ℚ) ≤ (analyzeCtaClarity blueprint : ℚ) := by exact_mod_cast hcc.1
      have c6 : (0 : ℚ) ≤ (analyzePillarAlignment brief blueprint : ℚ) := by exact_mod_cast hpa.1
      norm_num
      linarith
    have h2 : healthWeightedTotal (healthBreakdown brief blueprint) ≤ 100 := by
      unfold healthWeightedTotal healthBreakdown
      simp only
      have c1 : (analyzeNarrativeStrength blueprint : ℚ) ≤ 100 := by exact_mod_cast hns.2
      have c2 : (analyzeEmotionalBalance brief blueprint : ℚ) ≤ 100 := by exact_mod_cast heb.2
      have c3 : (analyzeAssetCoverage brief blueprint : ℚ) ≤ 100 := by exact_mod_cast hac.2
      have c4 : (analyzeHookQuality blueprint : ℚ) ≤ 100 := by exact_mod_cast hhq.2
      have c5 : (analyzeCtaClarity blueprint : ℚ) ≤ 100 := by exact_mod_cast hcc.2
      have c6 : (analyzePillarAlignment brief blueprint : ℚ) ≤ 100 := by exact_mod_cast hpa.2
      norm_num
      linarith
    exact ⟨jsRound_nonneg _ h1, jsRound_le _ 100 h2⟩
  · rw [hbd]; exact hns
  · rw [hbd]; exact heb
  · rw [hbd]; exact hac
  · rw [hbd]; exact hhq
  · rw [hbd]; exact hcc
  · rw [hbd]; exact hpa

/-- C2: the overall health score is exactly the rounded weighted sum of the
six sub-scores with weights 0.20, 0.15, 0.20, 0.20, 0.15, 0.10, and those
weights sum to 1. -/
theorem analyzeHealthScore_overall_eq_weighted_rubric (env : Env) (brief : CampaignBrief)
    (blueprint : CampaignBlueprint) :
    (analyzeHealthScore env brief blueprint).overall
      = jsRound ((analyzeNarrativeStrength blueprint : ℚ) * 0.20
          + (analyzeEmotionalBalance brief blueprint : ℚ) * 0.15
          + (analyzeAssetCoverage brief blueprint : ℚ) * 0.20
          + (analyzeHookQuality blueprint : ℚ) * 0.20
          + (analyzeCtaClarity blueprint : ℚ) * 0.15
          + (analyzePillarAlignment brief blueprint : ℚ) * 0.10)
    ∧ (0.20 + 0.15 + 0.20 + 0.20 + 0.15 + 0.10 : ℚ) = 1 :=
  ⟨rfl, by norm_num⟩

/-- C3: the health score computation is deterministic and local: its result
(the overall score, the breakdown, the insights and the recommendations) does
not depend on the ambient browser environment (clock or calendar), so any two
invocations on the same brief and blueprint agree. -/
theorem analyzeHealthScore_deterministic (e1 e2 : Env) (brief : CampaignBrief)
    (blueprint : CampaignBlueprint) :
    analyzeHealthScore e1 brief blueprint = analyzeHealthScore e2 brief blueprint := rfl

/-! ## Concrete sample inputs -/

def emptyMeta : CampaignMeta :=
  { campaign_name := "", purpose := "", pillars := [], primary_theme := "" }

def emptyAudience : Audience :=
  { archetypes := [], hidden_truth := "", fears := [], secret_desires := [] }

def emptyFrequency : EmotionalFrequency :=
  { humor := 0, relatability := 0, shock := 0, inspiration := 0, identity_shift := 0 }

def emptyCreative : CreativeInputs :=
  { raw_brain_dump := "", must_include_phrases := [], must_avoid_phrases := []
    voice_reference := "", cta_flavor := .soft_cosmic, emotional_frequency := emptyFrequency }

def emptyVisual : VisualInputs :=
  { style_tags := [], palette := "", instructor_image_url := "", logo_image_url := "" }

def emptyFormats : OutputFormats :=
  { memes := false, static_banners := false, short_vertical_videos := false
    ugc_scripts := false, carousels := false }

def zeroQuantities : OutputQuantities :=
  { memes := 0, static_banners := 0, short_vertical_videos := 0, ugc_scripts := 0, carousels := 0 }

def emptyOutputs : OutputsConfig :=
  { formats := emptyFormats, quantities := zeroQuantities, platforms := []
    aspect_ratios := [], video_max_duration_seconds := 0 }

def defaultConstraints : Constraints :=
  { humor_edge_level := .safe, body_sensitivity := .neutral
    language_filter := .clean, spirituality_flavor := .grounded }

def emptyBrief : CampaignBrief :=
  { meta := emptyMeta, audience := emptyAudience, creative := emptyCreative
    visual := emptyVisual, outputs := emptyOutputs, constraints := defaultConstraints
    special_notes := "" }

def emptySummary : CampaignSummary :=
  { one_liner := "", pillars := [], core_promise := "", primary_emotions := []
    tone_description := "" }

def emptyNarrative : NarrativePack :=
  { hooks := [], pain_points := [], micro_transformations := [], cta_variants := []
    taglines := [] }

def emptyBlueprint : CampaignBlueprint :=
  { campaign_summary := emptySummary, narrative_pack := emptyNarrative, memes := []
    static_banners := [], short_videos := [], ugc_scripts := [], carousels := []
    moments_mapping := [] }

def sampleMeme : Meme :=
  { id := "m", angle := "", top_text := "", bottom_text := "", alt_text := ""
    caption_options := [], hashtags := [], image_prompt := "", recommended_aspect_ratios := [] }

/-- A brief requesting exactly 1000 memes and nothing else. -/
def memeBrief : CampaignBrief :=
  { emptyBrief with outputs :=
    { emptyOutputs with quantities := { zeroQuantities with memes := 1000 } } }

/-- A blueprint delivering only 999 of the 1000 requested memes. -/
def underBlueprint : CampaignBlueprint :=
  { emptyBlueprint with memes := List.replicate 999 sampleMeme }

/-- A blueprint delivering all 1000 requested memes. -/
def fullBlueprint : CampaignBlueprint :=
  { emptyBlueprint with memes := List.replicate 1000 sampleMeme }

/-- C6 counterexample: a blueprint delivering 999 of 1000 requested memes is
under-delivered, yet its assetCoverage score is 100 — the same as full
delivery — because Math.round(99.9) = 100. Partial delivery is therefore not
strictly smaller than full delivery. -/
theorem analyzeAssetCoverage_underdelivered_still_full :
    underBlueprint.memes.length < memeBrief.outputs.quantities.memes
    ∧ analyzeAssetCoverage memeBrief underBlueprint = 100
    ∧ analyzeAssetCoverage memeBrief fullBlueprint = 100 := by
  refine ⟨?_, ?_, ?_⟩
  · simp only [underBlueprint, memeBrief, emptyBlueprint, emptyBrief, emptyOutputs,
      zeroQuantities, List.length_replicate]
    norm_num
  · simp only [analyzeAssetCoverage, coveragePairs, memeBrief, underBlueprint,
      emptyBlueprint, emptyBrief, emptyOutputs, zeroQuantities, coverageContribution,
      List.length_replicate]
    norm_num
    exact jsRound_eq_of _ 100 (by norm_num) (by norm_num)
  · simp only [analyzeAssetCoverage, coveragePairs, memeBrief, fullBlueprint,
      emptyBlueprint, emptyBrief, emptyOutputs, zeroQuantities, coverageContribution,
      List.length_replicate]
    norm_num
    exact jsRound_eq_of _ 100 (by norm_num) (by norm_num)

theorem coverageContribution_mono (req : ℕ) {g g' : ℕ} (h : g ≤ g') :
    coverageContribution req g ≤ coverageContribution req g' := by
  unfold coverageContribution
  by_cases hr : 0 < req
  · rw [if_pos hr, if_pos hr]
    by_cases h1 : req ≤ g
    · rw [if_pos h1, if_pos (Nat.le_trans h1 h)]
    · rw [if_neg h1]
      by_cases h2 : req ≤ g'
      · rw [if_pos h2]
        split_ifs with h3
        · exact (div_le_one (by exact_mod_cast hr)).mpr
            (by exact_mod_cast Nat.le_of_lt (Nat.lt_of_not_le h1))
        · norm_num
      · rw [if_neg h2]
        by_cases h3 : 0 < g
        · rw [if_pos h3, if_pos (Nat.lt_of_lt_of_le h3 h)]
          have hq : (0 : ℚ) < (req : ℚ) := by exact_mod_cast hr
          have hg : (g : ℚ) ≤ (g' : ℚ) := by exact_mod_cast h
          gcongr
        · rw [if_neg h3]
          split_ifs with h4
          · positivity
          · exact le_refl 0
  · rw [if_neg hr, if_neg hr]

/-- The totalRequested counter depends only on the brief side of the pairs. -/
theorem coverage_totalRequested_eq (brief : CampaignBrief)
    (blueprint blueprint' : CampaignBlueprint) :
    ((coveragePairs brief blueprint).filter (fun p => 0 < p.1)).length
      = ((coveragePairs brief blueprint').filter (fun p => 0 < p.1)).length := by
  simp only [coveragePairs, List.filter_cons, List.filter_nil]
  split_ifs <;> simp

/-- C6 amended: the assetCoverage sub-score is always in [0, 100]; it equals
100 when every asset type is generated in at least the requested quantity (in
particular when nothing is requested); and delivering fewer assets of each
type never increases the score — but, because of rounding, a slightly
under-delivered blueprint can still score the full 100, so partial delivery
is merely never larger, not strictly smaller. -/
theorem analyzeAssetCoverage_spec (brief : CampaignBrief)
    (blueprint blueprint' : CampaignBlueprint) :
    (0 ≤ analyzeAssetCoverage brief blueprint ∧ analyzeAssetCoverage brief blueprint ≤ 100)
    ∧ ((∀ p ∈ coveragePairs brief blueprint, p.1 ≤ p.2) →
        analyzeAssetCoverage brief blueprint = 100)
    ∧ (blueprint.memes.length ≤ blueprint'.memes.length →
       blueprint.static_banners.length ≤ blueprint'.static_banners.length →
       blueprint.short_videos.length ≤ blueprint'.short_videos.length →
       blueprint.ugc_scripts.length ≤ blueprint'.ugc_scripts.length →
       blueprint.carousels.length ≤ blueprint'.carousels.length →
       analyzeAssetCoverage brief blueprint ≤ analyzeAssetCoverage brief blueprint') := by
  refine ⟨analyzeAssetCoverage_range brief blueprint, ?_, ?_⟩
  · intro hfull
    unfold analyzeAssetCoverage
    simp only
    split_ifs with h
    · rw [sum_coverageContribution_full _ hfull]
      have htr : (0 : ℚ) < (((coveragePairs brief blueprint).filter (fun p => 0 < p.1)).length : ℚ) := by
        exact_mod_cast h
      rw [div_self (ne_of_gt htr), one_mul]
      exact jsRound_intCast 100
    · rfl
  · intro h1 h2 h3 h4 h5
    unfold analyzeAssetCoverage
    simp only
    rw [coverage_totalRequested_eq brief blueprint blueprint']
    split_ifs with h
    · apply jsRound_mono
      have hsum : ((coveragePairs brief blueprint).map (fun p => coverageContribution p.1 p.2)).sum
          ≤ ((coveragePairs brief blueprint').map (fun p => coverageContribution p.1 p.2)).sum := by
        simp only [coveragePairs, List.map_cons, List.map_nil, List.sum_cons, List.sum_nil]
        have c1 := coverageContribution_mono brief.outputs.quantities.memes h1
        have c2 := coverageContribution_mono brief.outputs.quantities.static_banners h2
        have c3 := coverageContribution_mono brief.outputs.quantities.short_vertical_videos h3
        have c4 := coverageContribution_mono brief.outputs.quantities.ugc_scripts h4
        have c5 := coverageContribution_mono brief.outputs.quantities.carousels h5
        linarith
      have htr : (0 : ℚ) < (((coveragePairs brief blueprint').filter (fun p => 0 < p.1)).length : ℚ) := by
        exact_mod_cast h
      gcongr
    · exact le_refl 100

/-- Witness for the amended C6 theorem at a concrete brief and blueprints. -/
theorem analyzeAssetCoverage_spec_witness :
    analyzeAssetCoverage emptyBrief emptyBlueprint = 100
    ∧ analyzeAssetCoverage emptyBrief emptyBlueprint
        ≤ analyzeAssetCoverage emptyBrief emptyBlueprint := by
  have h := analyzeAssetCoverage_spec emptyBrief emptyBlueprint emptyBlueprint
  exact ⟨h.2.1 (by decide), h.2.2 (by decide) (by decide) (by decide) (by decide) (by decide)⟩

/-! ## Pillar alignment: counterexample and amended statement (C7) -/

/-- A brief requesting 201 pillars (two hundred named "a", one named "b"). -/
def manyPillarsBrief : CampaignBrief :=
  { emptyBrief with meta := { emptyMeta with pillars := List.replicate 200 "a" ++ ["b"] } }

/-- A blueprint whose summary lists only the pillar "a". -/
def pillarABlueprint : CampaignBlueprint :=
  { emptyBlueprint with campaign_summary := { emptySummary with pillars := ["a"] } }

theorem filter_length_mono {α : Type} (l : List α) (p q : α → Bool)
    (h : ∀ a ∈ l, p a = true → q a = true) :
    (l.filter p).length ≤ (l.filter q).length := by
  induction l with
  | nil => simp
  | cons a t ih =>
    have iht := ih (fun b hb hpb => h b (List.mem_cons_of_mem a hb) hpb)
    simp only [List.filter_cons]
    by_cases hp : p a = true
    · rw [if_pos hp, if_pos (h a (List.mem_cons_self a t) hp)]
      simpa using iht
    · rw [if_neg hp]
      split_ifs
      · exact Nat.le_trans iht (by simp)
      · exact iht

set_option maxRecDepth 10000 in
/-- C7 counterexample: with 201 requested pillars of which only 200 are
matched, the pillarAlignment score is Math.round(200/201*100) = 100 even
though one requested pillar is not matched, so the score does not reach 100
exactly when every requested pillar is matched. -/
theorem analyzePillarAlignment_full_without_all_matched :
    analyzePillarAlignment manyPillarsBrief pillarABlueprint = 100
    ∧ ¬ (∀ p ∈ manyPillarsBrief.meta.pillars,
          pillarMatched pillarABlueprint.campaign_summary.pillars p = true) := by
  constructor
  · have hmc : pillarMatchCount manyPillarsBrief pillarABlueprint = 200 := by decide
    have hlen : manyPillarsBrief.meta.pillars.length = 201 := by decide
    simp only [analyzePillarAlignment, hmc, hlen]
    norm_num
    exact jsRound_eq_of _ 100 (by norm_num) (by norm_num)
  · decide

/-- C7 amended: pillarAlignment is 100 when no pillars are requested;
otherwise it is the rounded percentage of requested pillars matched
case-insensitively in the blueprint summary, it is monotone in the set of
matched pillars, and it reaches 100 exactly when at least 199/200 of the
requested pillars are matched (in particular whenever all of them are). -/
theorem analyzePillarAlignment_spec (brief : CampaignBrief)
    (blueprint blueprint' : CampaignBlueprint) :
    (brief.meta.pillars.length = 0 → analyzePillarAlignment brief blueprint = 100)
    ∧ (brief.meta.pillars.length ≠ 0 →
        analyzePillarAlignment brief blueprint
          = jsRound (((pillarMatchCount brief blueprint : ℚ)
              / (brief.meta.pillars.length : ℚ)) * 100))
    ∧ (brief.meta.pillars.length ≠ 0 →
        (analyzePillarAlignment brief blueprint = 100
          ↔ 199 * brief.meta.pillars.length ≤ 200 * pillarMatchCount brief blueprint))
    ∧ ((∀ p, pillarMatched blueprint.campaign_summary.pillars p = true →
          pillarMatched blueprint'.campaign_summary.pillars p = true) →
        analyzePillarAlignment brief blueprint ≤ analyzePillarAlignment brief blueprint') := by
  refine ⟨?_, ?_, ?_, ?_⟩
  · intro h
    simp [analyzePillarAlignment, h]
  · intro h
    simp [analyzePillarAlignment, h]
  · intro h
    have hlen : (0 : ℚ) < (brief.meta.pillars.length : ℚ) := by
      exact_mod_cast Nat.pos_of_ne_zero h
    have hmc : ((pillarMatchCount brief blueprint : ℚ)) ≤ (brief.meta.pillars.length : ℚ) := by
      exact_mod_cast pillarMatchCount_le brief blueprint
    simp only [analyzePillarAlignment]
    rw [if_neg h, jsRound_eq_floor, Int.floor_eq_iff]
    constructor
    · intro hf
      have h1 := hf.1
      push_cast at h1
      rw [div_mul_eq_mul_div] at h1
      have h2 : (199 : ℚ)/2
          ≤ (pillarMatchCount brief blueprint : ℚ) * 100 / (brief.meta.pillars.length : ℚ) := by
        linarith
      rw [le_div_iff₀ hlen] at h2
      have h3 : (199 : ℚ) * (brief.meta.pillars.length : ℚ)
          ≤ 200 * (pillarMatchCount brief blueprint : ℚ) := by nlinarith
      exact_mod_cast h3
    · intro hge
      have hge' : (199 : ℚ) * (brief.meta.pillars.length : ℚ)
          ≤ 200 * (pillarMatchCount brief blueprint : ℚ) := by exact_mod_cast hge
      have h2 : (199 : ℚ)/2 * (brief.meta.pillars.length : ℚ)
          ≤ (pillarMatchCount brief blueprint : ℚ) * 100 := by nlinarith
      have h3 := (le_div_iff₀ hlen).mpr h2
      have hdiv : (pillarMatchCount brief blueprint : ℚ) / (brief.meta.pillars.length : ℚ) ≤ 1 :=
        (div_le_one hlen).mpr hmc
      constructor
      · push_cast
        rw [div_mul_eq_mul_div]
        linarith
      · push_cast
        nlinarith
  · intro h
    unfold analyzePillarAlignment
    simp only
    split_ifs with h0
    · exact le_refl 100
    · have hmono : pillarMatchCount brief blueprint ≤ pillarMatchCount brief blueprint' := by
        unfold pillarMatchCount
        exact filter_length_mono _ _ _ (fun p _ hp => h p hp)
      have hlen : (0 : ℚ) < (brief.meta.pillars.length : ℚ) := by
        exact_mod_cast Nat.pos_of_ne_zero h0
      apply jsRound_mono
      have hc : ((pillarMatchCount brief blueprint : ℚ))
          ≤ (pillarMatchCount brief blueprint' : ℚ) := by exact_mod_cast hmono
      gcongr

/-- A brief requesting the single pillar "a". -/
def onePillarBrief : CampaignBrief :=
  { emptyBrief with meta := { emptyMeta with pillars := ["a"] } }

/-- Witness for the amended C7 theorem at concrete inputs: no requested
pillars gives 100, and a fully matched single pillar gives 100. -/
theorem analyzePillarAlignment_spec_witness :
    analyzePillarAlignment emptyBrief emptyBlueprint = 100
    ∧ analyzePillarAlignment onePillarBrief pillarABlueprint = 100 :=
  ⟨(analyzePillarAlignment_spec emptyBrief emptyBlueprint emptyBlueprint).1 (by decide),
   ((analyzePillarAlignment_spec onePillarBrief pillarABlueprint pillarABlueprint).2.2.1
      (by decide)).mpr (by decide)⟩

/-! ## Whisper claims (C4, C8) -/

/-- C4 counterexample: with no stored campaigns and no stored assets,
generateWhispers still returns a whisper when the current day is a Monday
(the Monday Motivation opportunity), so whispers are not derived from the
stored history alone and the empty-storage result is not always empty. -/
theorem generateWhispers_empty_storage_nonempty :
    generateWhispers { nowMs := 0, month := 5, dayOfWeek := 1, randomSeed := 0 } [] [] ≠ [] := by
  decide

/-- C4 amended: every whisper is derived from the stored campaign/asset
history together with the current date. With empty storage the result
consists exactly of the date-triggered opportunity whispers, and when the
date is neither in December or January nor a Monday the result is empty. -/
theorem generateWhispers_empty_storage (env : Env) :
    generateWhispers env [] [] = generateOpportunities env [] []
    ∧ (env.month ≠ 11 → env.month ≠ 0 → env.dayOfWeek ≠ 1 →
        generateWhispers env [] [] = []) := by
  constructor
  · by_cases hm11 : env.month = 11 <;> by_cases hm0 : env.month = 0 <;>
      by_cases hd : env.dayOfWeek = 1 <;>
      simp [generateWhispers, generateOpportunities, analyzeAssetDistribution,
        analyzeCampaignPatterns, analyzeTimingPatterns, analyzePillarUsage,
        hm11, hm0, hd, List.insertionSort, List.orderedInsert, whisperLE,
        priorityOrderVal]
  · intro h1 h2 h3
    simp [generateWhispers, generateOpportunities, analyzeAssetDistribution,
      analyzeCampaignPatterns, analyzeTimingPatterns, analyzePillarUsage,
      h1, h2, h3]

/-- Witness for the amended C4 theorem at a concrete non-seasonal,
non-Monday environment. -/
theorem generateWhispers_empty_storage_witness :
    generateWhispers { nowMs := 0, month := 5, dayOfWeek := 3, randomSeed := 0 } [] [] = [] :=
  (generateWhispers_empty_storage { nowMs := 0, month := 5, dayOfWeek := 3, randomSeed := 0 }).2
    (by decide) (by decide) (by decide)

/-- C8: generateWhispers returns at most 5 whispers, and they are ordered by
priority: in the returned list every whisper with priority high precedes
every whisper with priority medium, and medium precedes low (the priority
order values are pairwise nondecreasing along the list). -/
theorem generateWhispers_le_five_and_sorted (env : Env)
    (campaigns : List StoredCampaign) (assets : List StoredAsset) :
    (generateWhispers env campaigns assets).length ≤ 5
    ∧ List.Pairwise
        (fun a b => priorityOrderVal a.priority ≤ priorityOrderVal b.priority)
        (generateWhispers env campaigns assets) := by
  constructor
  · unfold generateWhispers
    rw [List.length_take]
    exact Nat.min_le_left 5 _
  · unfold generateWhispers
    exact List.Pairwise.sublist (List.take_sublist 5 _)
      (List.sorted_insertionSort whisperLE _)

/-! ## Publishing claims (C5, C10) -/

/-- C5: publishing is gated on stored credentials. For each of the four known
platforms, publishing without stored credentials for that platform yields
success = false with an error message and no postId, leaving the stored
credentials unchanged; publishing to an unknown platform yields
success = false with error "Unknown platform". -/
theorem publish_requires_credentials (env : Env) (store : CredStore)
    (request : PublishRequest) :
    (request.platform ∈ (["meta", "tiktok", "linkedin", "twitter"] : List String) →
      getStoredCredentials store request.platform = none →
      (publish env store request).1.success = false
      ∧ (publish env store request).1.error.isSome = true
      ∧ (publish env store request).1.postId = none
      ∧ (publish env store request).2 = store)
    ∧ (request.platform ∉ (["meta", "tiktok", "linkedin", "twitter"] : List String) →
      (publish env store request).1
        = { success := false, platform := request.platform, postId := none, postUrl := none
            error := some "Unknown platform", publishedAt := none }
      ∧ (publish env store request).2 = store) := by
  constructor
  · intro hmem hcred
    simp only [List.mem_cons, List.mem_singleton, List.not_mem_nil, or_false] at hmem
    rcases hmem with h | h | h | h <;> rw [h] at hcred <;>
      simp [publish, publishToMeta, publishToTikTok, publishToLinkedIn, publishToTwitter,
        h, hcred]
  · intro hnot
    simp only [List.mem_cons, List.mem_singleton, List.not_mem_nil, or_false,
      not_or] at hnot
    obtain ⟨h1, h2, h3, h4⟩ := hnot
    simp [publish, h1, h2, h3, h4]

def noContent : PublishContent :=
  { text := none, imageUrl := none, videoUrl := none, link := none, hashtags := none }

def metaRequest : PublishRequest :=
  { platform := "meta", content := noContent, scheduling := none }

def unknownRequest : PublishRequest :=
  { platform := "myspace", content := noContent, scheduling := none }

def emptyStore : CredStore := []

/-- Witness for the C5 theorem at a concrete environment, empty credential
store and concrete requests. -/
theorem publish_requires_credentials_witness :
    ((publish { nowMs := 0, month := 0, dayOfWeek := 0, randomSeed := 0 } emptyStore metaRequest).1.success = false
      ∧ (publish { nowMs := 0, month := 0, dayOfWeek := 0, randomSeed := 0 } emptyStore metaRequest).1.error.isSome = true
      ∧ (publish { nowMs := 0, month := 0, dayOfWeek := 0, randomSeed := 0 } emptyStore metaRequest).1.postId = none
      ∧ (publish { nowMs := 0, month := 0, dayOfWeek := 0, randomSeed := 0 } emptyStore metaRequest).2 = emptyStore)
    ∧ (publish { nowMs := 0, month := 0, dayOfWeek := 0, randomSeed := 0 } emptyStore unknownRequest).1
        = { success := false, platform := "myspace", postId := none, postUrl := none
            error := some "Unknown platform", publishedAt := none } :=
  ⟨(publish_requires_credentials { nowMs := 0, month := 0, dayOfWeek := 0, randomSeed := 0 } emptyStore
      metaRequest).1 (by decide) (by decide),
   ((publish_requires_credentials { nowMs := 0, month := 0, dayOfWeek := 0, randomSeed := 0 } emptyStore
      unknownRequest).2 (by decide)).1⟩

/-- C10: publishToTwitter enforces the 280-character limit. With credentials
stored for twitter and a request text longer than the configured
maxTextLength for twitter, the result is success = false with error
"Tweet exceeds 280 character limit." and no postId, and the enforced limit
equals PLATFORM_CONFIGS.twitter.maxTextLength = 280. -/
theorem publishToTwitter_enforces_limit (env : Env) (store : CredStore)
    (request : PublishRequest) (cred : PlatformCredentials) (t : String)
    (hcred : getStoredCredentials store "twitter" = some cred)
    (htext : request.content.text = some t)
    (hlen : twitterConfig.maxTextLength < t.length) :
    publishToTwitter env store request
      = { success := false, platform := "twitter", postId := none, postUrl := none
          error := some "Tweet exceeds 280 character limit.", publishedAt := none }
    ∧ twitterConfig.maxTextLength = 280
    ∧ PLATFORM_CONFIGS "twitter" = some twitterConfig := by
  have hlong : tweetTooLong request = true := by
    unfold tweetTooLong
    rw [htext]
    exact decide_eq_true hlen
  refine ⟨?_, rfl, rfl⟩
  unfold publishToTwitter
  rw [hcred, hlong]
  simp

def sampleTwitterCred : PlatformCredentials :=
  { platform := "twitter", accessToken := "tok", refreshToken := none, expiresAt := none
    accountId := none, accountName := none }

def longTweetRequest : PublishRequest :=
  { platform := "twitter"
    content := { noContent with text := some (String.mk (List.replicate 281 'a')) }
    scheduling := none }

set_option maxRecDepth 4000 in
/-- Witness for the C10 theorem with stored twitter credentials and a
281-character tweet. -/
theorem publishToTwitter_enforces_limit_witness :
    publishToTwitter { nowMs := 0, month := 0, dayOfWeek := 0, randomSeed := 0 }
        [("twitter", sampleTwitterCred)] longTweetRequest
      = { success := false, platform := "twitter", postId := none, postUrl := none
          error := some "Tweet exceeds 280 character limit.", publishedAt := none } :=
  (publishToTwitter_enforces_limit { nowMs := 0, month := 0, dayOfWeek := 0, randomSeed := 0 }
    [("twitter", sampleTwitterCred)] longTweetRequest sampleTwitterCred
    (String.mk (List.replicate 281 'a')) (by decide) rfl (by decide)).1

/-! ## Engagement rate claims (C9) -/

theorem jsTruthy_ne_zero (x : Option ℚ) (v : ℚ) (h : jsTruthy x = some v) : v ≠ 0 := by
  cases x with
  | none => simp [jsTruthy] at h
  | some w =>
    by_cases hw : w = 0
    · simp [jsTruthy, hw] at h
    · simp [jsTruthy, hw] at h
      rw [← h]
      exact hw

theorem jsTruthy_nonneg (x : Option ℚ) (hx : ∀ v ∈ x, 0 ≤ v) (v : ℚ)
    (h : jsTruthy x = some v) : 0 ≤ v := by
  cases x with
  | none => simp [jsTruthy] at h
  | some w =>
    by_cases hw : w = 0
    · simp [jsTruthy, hw] at h
    · simp [jsTruthy, hw] at h
      rw [← h]
      exact hx w rfl

theorem engagementDenominator_ne_zero (metrics : PerformanceMetrics) :
    engagementDenominator metrics ≠ 0 := by
  unfold engagementDenominator
  cases hr : jsTruthy metrics.reach with
  | some v => exact jsTruthy_ne_zero _ _ hr
  | none =>
    cases hi : jsTruthy metrics.impressions with
    | some v => exact jsTruthy_ne_zero _ _ hi
    | none =>
      cases hv : jsTruthy metrics.views with
      | some v => exact jsTruthy_ne_zero _ _ hv
      | none => norm_num

theorem engagementDenominator_pos (metrics : PerformanceMetrics)
    (hre : ∀ v ∈ metrics.reach, 0 ≤ v) (him : ∀ v ∈ metrics.impressions, 0 ≤ v)
    (hvi : ∀ v ∈ metrics.views, 0 ≤ v) :
    0 < engagementDenominator metrics := by
  unfold engagementDenominator
  cases hr : jsTruthy metrics.reach with
  | some v =>
    exact lt_of_le_of_ne (jsTruthy_nonneg _ hre _ hr) (Ne.symm (jsTruthy_ne_zero _ _ hr))
  | none =>
    cases hi : jsTruthy metrics.impressions with
    | some v =>
      exact lt_of_le_of_ne (jsTruthy_nonneg _ him _ hi) (Ne.symm (jsTruthy_ne_zero _ _ hi))
    | none =>
      cases hv : jsTruthy metrics.views with
      | some v =>
        exact lt_of_le_of_ne (jsTruthy_nonneg _ hvi _ hv) (Ne.symm (jsTruthy_ne_zero _ _ hv))
      | none => norm_num

theorem orZero_nonneg (x : Option ℚ) (hx : ∀ v ∈ x, 0 ≤ v) : 0 ≤ orZero x := by
  unfold orZero
  cases x with
  | none => exact le_refl 0
  | some w => exact hx w rfl

/-- A metrics record whose only present field is likes = -1. -/
def negLikesMetrics : PerformanceMetrics :=
  { views := none, impressions := none, likes := some (-1), comments := none
    shares := none, saves := none, clicks := none, engagementRate := none
    clickThroughRate := none, reach := none, followers := none }

/-- C9 counterexample: the metrics fields are arbitrary JS numbers, so a
record with likes = -1 and everything else absent produces the engagement
rate -100, which is negative; the function is not non-negative on every
metrics input. -/
theorem calculateEngagementRate_negative :
    calculateEngagementRate negLikesMetrics < 0 := by
  norm_num [calculateEngagementRate, engagementDenominator, orZero, jsTruthy,
    negLikesMetrics]

/-- C9 amended: calculateEngagementRate is total and never divides by zero
(the denominator falls back through reach, impressions and views to 1 and is
never 0), it always equals (likes + comments + shares + saves) divided by the
first non-zero of reach/impressions/views (or 1), times 100, and it is
non-negative whenever the present metric fields are non-negative. -/
theorem calculateEngagementRate_spec (metrics : PerformanceMetrics) :
    engagementDenominator metrics ≠ 0
    ∧ calculateEngagementRate metrics
        = ((orZero metrics.likes + orZero metrics.comments
            + orZero metrics.shares + orZero metrics.saves)
              / engagementDenominator metrics) * 100
    ∧ ((∀ v ∈ metrics.likes, 0 ≤ v) → (∀ v ∈ metrics.comments, 0 ≤ v) →
       (∀ v ∈ metrics.shares, 0 ≤ v) → (∀ v ∈ metrics.saves, 0 ≤ v) →
       (∀ v ∈ metrics.reach, 0 ≤ v) → (∀ v ∈ metrics.impressions, 0 ≤ v) →
       (∀ v ∈ metrics.views, 0 ≤ v) →
       0 ≤ calculateEngagementRate metrics) := by
  refine ⟨engagementDenominator_ne_zero metrics, rfl, ?_⟩
  intro hl hc hs hsa hre him hvi
  unfold calculateEngagementRate
  have hnum : 0 ≤ orZero metrics.likes + orZero metrics.comments
      + orZero metrics.shares + orZero metrics.saves := by
    have := orZero_nonneg _ hl
    have := orZero_nonneg _ hc
    have := orZero_nonneg _ hs
    have := orZero_nonneg _ hsa
    linarith
  have hden := engagementDenominator_pos metrics hre him hvi
  positivity

/-- A metrics record with likes = 3 and reach = 10. -/
def posMetrics : PerformanceMetrics :=
  { views := none, impressions := none, likes := some 3, comments := none
    shares := none, saves := none, clicks := none, engagementRate := none
    clickThroughRate := none, reach := some 10, followers := none }

/-- Witness for the amended C9 theorem at a concrete metrics record. -/
theorem calculateEngagementRate_spec_witness :
    0 ≤ calculateEngagementRate posMetrics :=
  (calculateEngagementRate_spec posMetrics).2.2
    (by intro v hv; simp only [posMetrics, Option.mem_some_iff] at hv; subst hv; norm_num)
    (by intro v hv; simp only [posMetrics] at hv; exact absurd hv (Option.not_mem_none v))
    (by intro v hv; simp only [posMetrics] at hv; exact absurd hv (Option.not_mem_none v))
    (by intro v hv; simp only [posMetrics] at hv; exact absurd hv (Option.not_mem_none v))
    (by intro v hv; simp only [posMetrics, Option.mem_some_iff] at hv; subst hv; norm_num)
    (by intro v hv; simp only [posMetrics] at hv; exact absurd hv (Option.not_mem_none v))
    (by intro v hv; simp only [posMetrics] at hv; exact absurd hv (Option.not_mem_none v))

end Campaign
